import Mathlib

/-!
Verification of the exchange-orchestration spec of the
sudo-di-cloud-agent-example-js repository against its source.

The definitions below are shallow embeddings of the backend SDK wrapper
(src/backend/src/CloudAgent.ts), the frontend HTTP client
(src/frontend/src/HttpToBackend.ts) and the frontend flow components
(src/frontend/src/components/**). Asynchronous interactions with the
external Agent Service are modelled by passing the service response (or
the trace of responses a poll loop observes) as an explicit argument.
JavaScript truthiness of optional strings is modelled by `strTruthy`.
-/

namespace CloudAgentExample

/-- JavaScript truthiness of an optional string field: `undefined` and the
empty string are falsy, every other string is truthy. -/
def strTruthy : Option String → Bool
  | none => false
  | some s => s.length != 0

/-! ## Presentation-exchange state endpoints (CloudAgent.ts 1005-1099) -/

/-- Fields of the acapy V10 presentation exchange record used by
`getAnoncredsProofPresentationExchangeState`: the protocol state, the
`verified` enum (string values "true" / "false", absent before
verification), and the two revealed attribute raw values. -/
structure V10PresExRecord where
  state : Option String
  verified : Option String
  revealedName : Option String
  revealedExpiry : Option String
  deriving Repr, DecidableEq

/-- The JSON body the backend returns for an AnonCreds presentation
exchange state query. -/
structure AnoncredsPresExStateResponse where
  presentationExchangeId : String
  state : String
  revealedName : Option String
  revealedExpiry : Option String
  verified : Bool
  deriving Repr, DecidableEq

/-- Embedding of `CloudAgent.getAnoncredsProofPresentationExchangeState`
(CloudAgent.ts 1005-1039). The `verified` field of the response is the
boolean comparison `result.verified === "true"`; the source performs no
check that `state` has reached its terminal value before computing it. -/
def getAnoncredsProofPresentationExchangeState (presentationExchangeId : String)
    (result : V10PresExRecord) : Except String AnoncredsPresExStateResponse :=
  if presentationExchangeId.length = 0 then
    .error "Missing required param \"presentationExchangeId\""
  else
    match result.state with
    | none => .error "Failed to get proof presentation exchange state"
    | some st =>
        .ok { presentationExchangeId := presentationExchangeId
              state := st
              revealedName := result.revealedName
              revealedExpiry := result.revealedExpiry
              verified := result.verified == some "true" }

/-- Fields of the acapy V20 presentation exchange record used by
`getW3cProofPresentationExchangeState`. The revealed attributes come from
`by_format.pres.dif.verifiableCredential[0].credentialSubject`. -/
structure V20PresExRecord where
  state : Option String
  verified : Option String
  revealedGivenName : Option String
  revealedFamilyName : Option String
  deriving Repr, DecidableEq

/-- The JSON body the backend returns for a W3C presentation exchange
state query. -/
structure W3cPresExStateResponse where
  presentationExchangeId : String
  state : String
  revealedGivenName : Option String
  revealedFamilyName : Option String
  verified : Bool
  deriving Repr, DecidableEq

/-- Embedding of `CloudAgent.getW3cProofPresentationExchangeState`
(CloudAgent.ts 1054-1099). Here `verified` is the boolean conjunction
`result.state === "done" && result.verified === "true"`, and the revealed
attributes are copied only in the states "presentation-received" and
"done". -/
def getW3cProofPresentationExchangeState (presentationExchangeId : String)
    (result : V20PresExRecord) : Except String W3cPresExStateResponse :=
  if presentationExchangeId.length = 0 then
    .error "Missing required param \"presentationExchangeId\""
  else
    match result.state with
    | none => .error "Failed to get proof presentation exchange state"
    | some st =>
        let base : W3cPresExStateResponse :=
          { presentationExchangeId := presentationExchangeId
            state := st
            revealedGivenName := none
            revealedFamilyName := none
            verified := (st == "done") && (result.verified == some "true") }
        if st == "presentation-received" || st == "done" then
          .ok { base with
                revealedGivenName := result.revealedGivenName
                revealedFamilyName := result.revealedFamilyName }
        else
          .ok base

/-! ## Discovery endpoints (CloudAgent.ts 550-591 and 932-952) -/

/-- The fields of a V20 credential exchange record read by
`getW3cCredentialOffer`: the exchange id and the offered
`credentialSubject` attributes. -/
structure V20CredExRecordDetail where
  cred_ex_id : Option String
  offerGivenName : Option String
  offerFamilyName : Option String
  deriving Repr, DecidableEq

/-- One element of the `results` array returned by
`issueCredential20RecordsGet`: a wrapper holding an optional credential
exchange record. -/
structure V20CredExRecordItem where
  cred_ex_record : Option V20CredExRecordDetail
  deriving Repr, DecidableEq

/-- The body the backend returns when a W3C credential offer is found. -/
structure W3cCredentialOfferResponse where
  credentialExchangeId : Option String
  givenName : String
  familyName : String
  deriving Repr, DecidableEq

/-- Embedding of `CloudAgent.getW3cCredentialOffer` (CloudAgent.ts
550-591). The source keeps the first record only when
`results.length === 1`; in every other case (zero results, or two or
more results) `credentialExchange` is `undefined` and the endpoint
returns the empty object. When exactly one record exists but either
offered attribute is missing or empty it throws. `.ok none` models the
empty-object response. -/
def getW3cCredentialOffer (connectionId : String)
    (results : List V20CredExRecordItem) :
    Except String (Option W3cCredentialOfferResponse) :=
  if connectionId.length = 0 then
    .error "Missing required param \"connectionId\""
  else
    match (if results.length = 1 then results.head?.map (·.cred_ex_record) else none) with
    | none => .ok none
    | some none => .ok none
    | some (some cr) =>
        match cr.offerGivenName, cr.offerFamilyName with
        | some g, some f =>
            if g.length != 0 && f.length != 0 then
              .ok (some { credentialExchangeId := cr.cred_ex_id
                          givenName := g
                          familyName := f })
            else
              .error "Failed to fetch expected credential exchange"
        | _, _ => .error "Failed to fetch expected credential exchange"

/-- One element of the `results` array returned by
`presentProof20RecordsGet`, restricted to the field read by
`getW3cProofRequest`. -/
structure V20PresExRecordItem where
  pres_ex_id : Option String
  deriving Repr, DecidableEq

/-- The body the backend returns when a W3C proof request is found. -/
structure W3cProofRequestResponse where
  presentationExchangeId : Option String
  deriving Repr, DecidableEq

/-- Embedding of `CloudAgent.getW3cProofRequest` (CloudAgent.ts 932-952).
Exactly as for the credential offer discovery, only a singleton `results`
array produces a non-empty response; zero results and two or more
results both yield the empty object. -/
def getW3cProofRequest (connectionId : String)
    (results : List V20PresExRecordItem) :
    Except String (Option W3cProofRequestResponse) :=
  if connectionId.length = 0 then
    .error "Missing required param \"connectionId\""
  else
    match (if results.length = 1 then results.head? else none) with
    | none => .ok none
    | some item => .ok (some { presentationExchangeId := item.pres_ex_id })

/-! ## Initiating operations and their input validation (CloudAgent.ts) -/

/-- The fields of the SDK response to `connectionsCreateInvitationPost`
read by the source. -/
structure ConnectionsCreateInvitationResult where
  connection_id : Option String
  invitation_url : Option String
  deriving Repr, DecidableEq

/-- Successful response body of the create-invitation endpoint. -/
structure CreateInvitationResponse where
  connectionId : String
  invitationUrl : String
  deriving Repr, DecidableEq

/-- Observable outcome of `createConnectionInvitation`: the alias carried
by the `connectionsCreateInvitationPost` command if that SDK command was
issued, and the value returned (or error thrown) to the caller. -/
structure CreateInvitationOutcome where
  commandAlias : Option String
  result : Except String CreateInvitationResponse
  deriving Repr

/-- Embedding of `CloudAgent.createConnectionInvitation` (CloudAgent.ts
117-157). The source contains no validation of `connectionAlias`: the
SDK command is issued unconditionally with `alias = connectionAlias`,
and the only failure is the post-hoc check that the service returned
both a connection id and an invitation url. -/
def createConnectionInvitation (connectionAlias : String)
    (svc : ConnectionsCreateInvitationResult) : CreateInvitationOutcome :=
  if strTruthy svc.connection_id && strTruthy svc.invitation_url then
    { commandAlias := some connectionAlias
      result := .ok { connectionId := svc.connection_id.getD ""
                      invitationUrl := svc.invitation_url.getD "" } }
  else
    { commandAlias := some connectionAlias
      result := .error "Failed to create connection invitation" }

/-- Successful response body of the send-presentation endpoint. -/
structure SendPresentationResponse where
  presentationExchangeId : String
  state : String
  deriving Repr, DecidableEq

/-- Observable outcome of `sendW3cProofPresentation`: the pair of ids
carried by the `presentProof20RecordsPresExIdSendPresentationPost`
command if that SDK command was issued, and the returned value. -/
structure SendPresentationOutcome where
  commandIds : Option (String × String)
  result : Except String SendPresentationResponse
  deriving Repr

/-- Embedding of `CloudAgent.sendW3cProofPresentation` (CloudAgent.ts
965-990). The source validates only `presentationExchangeId`
(throwing when it is empty); `credentialId` is passed through to the SDK
command unchecked, and the response state defaults to the empty string
(`result.state ?? ""`). -/
def sendW3cProofPresentation (presentationExchangeId credentialId : String)
    (svcState : Option String) : SendPresentationOutcome :=
  if presentationExchangeId.length = 0 then
    { commandIds := none
      result := .error "Missing required param \"presentationExchangeId\"" }
  else
    { commandIds := some (presentationExchangeId, credentialId)
      result := .ok { presentationExchangeId := presentationExchangeId
                      state := svcState.getD "" } }

/-! ## Holder DID creation on credential request (CloudAgent.ts 603-650) -/

/-- The wallet side of the Agent Service as the backend observes it: the
optional DID returned by the n-th `walletDidCreatePost` call of the
session, and the `error_msg` field of the send-request response for a
given credential exchange id. -/
structure WalletEnv where
  didAt : Nat → Option String
  sendRequestErrorMsg : String → Option String

/-- Embedding of `CloudAgent.postW3cCredentialRequest` (CloudAgent.ts
603-650). The call counter `n` tracks how many `walletDidCreatePost`
calls have been made so far; every invocation that passes the empty-id
validation performs exactly one fresh DID creation and, on success,
returns precisely that DID as the holder DID. Nothing is cached or
reused across invocations. -/
def postW3cCredentialRequest (credentialExchangeId : String)
    (env : WalletEnv) (n : Nat) : Except String String × Nat :=
  if credentialExchangeId.length = 0 then
    (.error "Missing required param \"credentialExchangeId\"", n)
  else
    match env.didAt n with
    | none => (.error "Failed to create holder DID for credential", n + 1)
    | some did =>
        if did.length = 0 then
          (.error "Failed to create holder DID for credential", n + 1)
        else if strTruthy (env.sendRequestErrorMsg credentialExchangeId) then
          (.error "Failed to send credential request", n + 1)
        else
          (.ok did, n + 1)

/-! ## Frontend poll loops (EstablishConnection*.tsx, VerifyCredential.tsx) -/

/-- The response of one backend connection-state query. -/
structure ConnStateResponse where
  connectionId : String
  state : String
  deriving Repr, DecidableEq

/-- Outcome of running one of the frontend `while` poll loops against a
finite trace of query results. `completed us` means the terminal
predicate became true and the loop exited after having delivered the UI
updates `us` (one per successful query, the terminal one included);
`aborted us e` means a query rejected, which terminates the whole async
function because the loops contain no try/catch
(HttpToBackend.httpRequest 95-107 simply returns the fetch promise);
`pending us` means the trace ran out while the loop was still waiting. -/
inductive LoopOutcome (α : Type) where
  | completed (updates : List α)
  | aborted (updates : List α) (e : String)
  | pending (updates : List α)
  deriving Repr, DecidableEq

/-- The UI updates delivered by a loop run, whatever its outcome. -/
def LoopOutcome.updates : LoopOutcome α → List α
  | .completed us => us
  | .aborted us _ => us
  | .pending us => us

/-- Embedding of the frontend polling pattern, e.g.
`pollConnectionState` (EstablishConnectionAsInviter.tsx 114-140):
`while (!isDone) { r = await query(); isDone = p r; onUpdate r; sleep }`.
Each successful query delivers its update (even the terminal one); a
rejected query propagates out of the async function at once, before any
update for that iteration and before any further query. -/
def pollLoop (p : α → Bool) : List (Except String α) → LoopOutcome α
  | [] => .pending []
  | .error e :: _ => .aborted [] e
  | .ok a :: rest =>
      if p a then .completed [a]
      else
        match pollLoop p rest with
        | .completed us => .completed (a :: us)
        | .aborted us e => .aborted (a :: us) e
        | .pending us => .pending (a :: us)

/-- Embedding of the lifetime of a poll loop relative to its owning flow
instance. The React effects that start the loops (for example
EstablishConnectionAsInviter.tsx 103-107) return no cleanup function and
the loops consult no cancellation flag, so the updates a loop delivers
are computed from its query trace alone: the `tornDownAfter` parameter
records after how many polls the owning component was unmounted or the
flow was reset, and the body mirrors the source in not consulting it. -/
def pollLoopWithTeardown (tornDownAfter : Option Nat) (p : α → Bool)
    (trace : List (Except String α)) : LoopOutcome α :=
  pollLoop p trace

/-- The ready predicate of the inviter connection poll
(EstablishConnectionAsInviter.tsx 120): the connection is usable for the
next stage when its state is "response" or "active". -/
def inviterConnectionReady (state : String) : Bool :=
  state == "response" || state == "active"

/-- The terminal predicate of the invitee connection poll
(EstablishConnectionAsInvitee.tsx 161) and of the inviter display-only
second loop (EstablishConnectionAsInviter.tsx 136): state "active"
exactly. -/
def connectionActive (state : String) : Bool :=
  state == "active"

/-- Helper mirroring one `while` loop over successful state strings:
the updates delivered, and the remaining trace if the predicate was
reached (`none` if the trace ran out first). -/
def pollStatesUntil (p : String → Bool) : List String → List String × Option (List String)
  | [] => ([], none)
  | s :: rest =>
      if p s then ([s], some rest)
      else
        match pollStatesUntil p rest with
        | (us, r) => (s :: us, r)

/-- Result of one run of the inviter connection poll function. -/
structure InviterPollRun where
  updatesBeforeReady : List String
  readySignalled : Bool
  updatesAfterReady : List String
  deriving Repr, DecidableEq

/-- Embedding of the inviter `pollConnectionState`
(EstablishConnectionAsInviter.tsx 114-140) over a trace of successful
state queries: the first loop runs until `inviterConnectionReady`, then
the component signals completion (`setStep(ExampleStep.Done)`), then a
second display-only loop keeps polling the remaining trace until state
"active" without signalling again. -/
def inviterPollConnectionState (trace : List String) : InviterPollRun :=
  match pollStatesUntil inviterConnectionReady trace with
  | (us, none) =>
      { updatesBeforeReady := us, readySignalled := false, updatesAfterReady := [] }
  | (us, some rest) =>
      { updatesBeforeReady := us
        readySignalled := true
        updatesAfterReady := (pollStatesUntil connectionActive rest).1 }

/-- Embedding of the invitee `pollConnectionState`
(EstablishConnectionAsInvitee.tsx 155-168): a single loop until state
"active", after which the connection is signalled as established. -/
def inviteePollConnectionState (trace : List String) : List String × Bool :=
  match pollStatesUntil connectionActive trace with
  | (us, none) => (us, false)
  | (us, some _) => (us, true)

/-! ## Flow state machines (the three example flows)

Each React example-flow page holds per-section step enums in `useState`
hooks and advances them through event handlers and `useEffect` gates.
The machines below embed those pages as explicit step functions over an
event alphabet: one event per user interaction, per backend response
resuming an `await`, and per poll-loop completion. A `useEffect` gate
that reacts to a step reaching `Done` is applied in the same transition
that sets that step, matching the React commit-then-run-effects order.
Each transition returns the new state together with the list of backend
commands it issues; a handler whose guard fails returns the state
unchanged with no commands, exactly like the `if (step !== X) return;`
prologues in the source. -/

/-- Backend commands the frontend can issue (HttpToBackend methods). -/
inductive AgentCommand where
  | createConnectionInvitation (connAlias : String)
  | acceptConnectionInvitation (connAlias invitationUrl : String)
  | publishSchema
  | publishCredDef (schemaId : String)
  | sendAnoncredsCredentialOffer (connectionId credDefId name expiry : String)
  | sendAnoncredsProofRequest (connectionId credDefId : String)
  | sendW3cCredentialOffer (connectionId givenName familyName : String)
  | sendW3cProofRequest (connectionId issuerDid : String)
  | acceptW3cCredentialOffer (credentialExchangeId : String)
  | sendW3cProofPresentation (presentationExchangeId credentialId : String)
  deriving Repr, DecidableEq

/-- Steps of EstablishConnectionAsInviter (its ExampleStep enum). -/
inductive ConnInviterStep where
  | SetConnectionAlias | CreateInvitation | WaitForInvitationCreation
  | AcceptInvitation | Done
  deriving Repr, DecidableEq

/-- Steps of PrepareToIssueCredentials (its ExampleStep enum). -/
inductive PublishStep where
  | PublishSchema | WaitForPublishSchema | PublishCredDef
  | WaitForPublishCredDef | Done
  deriving Repr, DecidableEq

/-- Steps of IssueCredential (same ExampleStep enum in the anoncreds and
w3c variants). -/
inductive IssueStep where
  | StandbyUntilReadyToIssue | SetCredentialData | SendCredentialOffer
  | WaitForSendCredentialOffer | AcceptCredential | Done
  deriving Repr, DecidableEq

/-- Steps of VerifyCredential (same ExampleStep enum in the anoncreds and
w3c variants). -/
inductive VerifyStep where
  | StandbyUntilReadyToVerify | RequestProofPresentation
  | WaitForRequestProofPresentation | PresentProof | Done
  deriving Repr, DecidableEq

/-- State of the AnonCreds issue-and-verify flow page: the four section
steps plus the string state threaded between sections. -/
structure AnoncredsFlowState where
  connectionStep : ConnInviterStep
  publishStep : PublishStep
  issueStep : IssueStep
  verifyStep : VerifyStep
  connectionAlias : String
  connectionId : String
  schemaId : String
  credDefId : String
  attributeName : String
  attributeExpiry : String
  deriving Repr, DecidableEq

/-- Initial state of the AnonCreds flow page (the useState defaults). -/
def initAnoncredsFlow : AnoncredsFlowState :=
  { connectionStep := .SetConnectionAlias
    publishStep := .PublishSchema
    issueStep := .StandbyUntilReadyToIssue
    verifyStep := .StandbyUntilReadyToVerify
    connectionAlias := ""
    connectionId := ""
    schemaId := ""
    credDefId := ""
    attributeName := ""
    attributeExpiry := "" }

/-- Events of the AnonCreds flow: user interactions, backend responses
resuming an await, and poll-loop completions. -/
inductive AnoncredsFlowEvent where
  | connAliasChanged (value : String)
  | createInvitationClicked
  | invitationCreated (connectionId : String)
  | connectionReady
  | publishSchemaClicked
  | schemaPublished (schemaId : String)
  | publishCredDefClicked
  | credDefPublished (credDefId : String)
  | attributeNameChanged (value : String)
  | attributeExpiryChanged (value : String)
  | sendCredentialOfferClicked
  | credentialOfferSent (credentialExchangeId : String)
  | credentialIssued
  | requestProofClicked
  | proofRequestSent (presentationExchangeId : String)
  | presentationVerified
  deriving Repr, DecidableEq

/-- Step function of the AnonCreds issue-and-verify flow, from
IssueAndVerifyExampleFlow (anoncreds), EstablishConnectionAsInviter,
PublishSchema, PublishCredDef, IssueCredential (anoncreds) and
VerifyCredential (anoncreds). The two `useEffect` gates of the flow page
are applied inside the transitions that move `connectionStep`,
`publishStep` or `issueStep` to `Done`. -/
def stepAnoncredsFlow (s : AnoncredsFlowState) (e : AnoncredsFlowEvent) :
    AnoncredsFlowState × List AgentCommand :=
  match e with
  | .connAliasChanged v =>
      if s.connectionStep = .SetConnectionAlias ∨ s.connectionStep = .CreateInvitation then
        ({ s with connectionAlias := v
                  connectionStep :=
                    if v.length > 0 then .CreateInvitation else .SetConnectionAlias }, [])
      else (s, [])
  | .createInvitationClicked =>
      if s.connectionStep = .CreateInvitation then
        ({ s with connectionStep := .WaitForInvitationCreation },
         [.createConnectionInvitation s.connectionAlias])
      else (s, [])
  | .invitationCreated cid =>
      if s.connectionStep = .WaitForInvitationCreation then
        ({ s with connectionId := cid, connectionStep := .AcceptInvitation }, [])
      else (s, [])
  | .connectionReady =>
      if s.connectionStep = .AcceptInvitation then
        (if s.publishStep = .Done then
          { s with connectionStep := .Done, issueStep := .SetCredentialData }
         else
          { s with connectionStep := .Done }, [])
      else (s, [])
  | .publishSchemaClicked =>
      if s.publishStep = .PublishSchema then
        ({ s with publishStep := .WaitForPublishSchema }, [.publishSchema])
      else (s, [])
  | .schemaPublished sid =>
      if s.publishStep = .WaitForPublishSchema then
        ({ s with schemaId := sid, publishStep := .PublishCredDef }, [])
      else (s, [])
  | .publishCredDefClicked =>
      if s.publishStep = .PublishCredDef then
        ({ s with publishStep := .WaitForPublishCredDef }, [.publishCredDef s.schemaId])
      else (s, [])
  | .credDefPublished cid =>
      if s.publishStep = .WaitForPublishCredDef then
        (if s.connectionStep = .Done then
          { s with credDefId := cid, publishStep := .Done, issueStep := .SetCredentialData }
         else
          { s with credDefId := cid, publishStep := .Done }, [])
      else (s, [])
  | .attributeNameChanged v =>
      if s.issueStep = .SetCredentialData ∨ s.issueStep = .SendCredentialOffer then
        ({ s with attributeName := v
                  issueStep :=
                    if v.length > 0 ∧ s.attributeExpiry.length > 0 then
                      .SendCredentialOffer
                    else .SetCredentialData }, [])
      else (s, [])
  | .attributeExpiryChanged v =>
      if s.issueStep = .SetCredentialData ∨ s.issueStep = .SendCredentialOffer then
        ({ s with attributeExpiry := v
                  issueStep :=
                    if v.length > 0 ∧ s.attributeName.length > 0 then
                      .SendCredentialOffer
                    else .SetCredentialData }, [])
      else (s, [])
  | .sendCredentialOfferClicked =>
      if s.issueStep = .SendCredentialOffer then
        ({ s with issueStep := .WaitForSendCredentialOffer },
         [.sendAnoncredsCredentialOffer s.connectionId s.credDefId
            s.attributeName s.attributeExpiry])
      else (s, [])
  | .credentialOfferSent _ =>
      if s.issueStep = .WaitForSendCredentialOffer then
        ({ s with issueStep := .AcceptCredential }, [])
      else (s, [])
  | .credentialIssued =>
      if s.issueStep = .AcceptCredential then
        ({ s with issueStep := .Done, verifyStep := .RequestProofPresentation }, [])
      else (s, [])
  | .requestProofClicked =>
      if s.verifyStep = .RequestProofPresentation then
        ({ s with verifyStep := .WaitForRequestProofPresentation },
         [.sendAnoncredsProofRequest s.connectionId s.credDefId])
      else (s, [])
  | .proofRequestSent _ =>
      if s.verifyStep = .WaitForRequestProofPresentation then
        ({ s with verifyStep := .PresentProof }, [])
      else (s, [])
  | .presentationVerified =>
      if s.verifyStep = .PresentProof then
        ({ s with verifyStep := .Done }, [])
      else (s, [])

/-- Run of the AnonCreds flow page from its initial state. -/
def runAnoncredsFlow (es : List AnoncredsFlowEvent) : AnoncredsFlowState :=
  es.foldl (fun s e => (stepAnoncredsFlow s e).1) initAnoncredsFlow

/-- State of the W3C issue-and-verify flow page
(w3c/IssueAndVerifyExampleFlow.tsx): no publish section, and the issuer
DID returned by the send-offer response is threaded to the verify
section. -/
structure W3cIssueFlowState where
  connectionStep : ConnInviterStep
  issueStep : IssueStep
  verifyStep : VerifyStep
  connectionAlias : String
  connectionId : String
  issuerDid : String
  attributeGivenName : String
  attributeFamilyName : String
  deriving Repr, DecidableEq

/-- Initial state of the W3C issue-and-verify flow page. -/
def initW3cIssueFlow : W3cIssueFlowState :=
  { connectionStep := .SetConnectionAlias
    issueStep := .StandbyUntilReadyToIssue
    verifyStep := .StandbyUntilReadyToVerify
    connectionAlias := ""
    connectionId := ""
    issuerDid := ""
    attributeGivenName := ""
    attributeFamilyName := "" }

/-- Events of the W3C issue-and-verify flow. -/
inductive W3cIssueFlowEvent where
  | connAliasChanged (value : String)
  | createInvitationClicked
  | invitationCreated (connectionId : String)
  | connectionReady
  | attributeGivenNameChanged (value : String)
  | attributeFamilyNameChanged (value : String)
  | sendCredentialOfferClicked
  | credentialOfferSent (credentialExchangeId issuerDid : String)
  | credentialIssued
  | requestProofClicked
  | proofRequestSent (presentationExchangeId : String)
  | presentationDone
  deriving Repr, DecidableEq

/-- Modelled from the spec: the W3C VerifyCredential component is
missing from the repository sources (only its caller
w3c/IssueAndVerifyExampleFlow.tsx is present). Following spec section
4.5 and the AnonCreds VerifyCredential sibling it mirrors, the verify
section issues `sendRequest(connectionId, constraintRef)` — the
constraint being the issuer DID, as consumed by `sendW3cProofRequest` —
from a click handler guarded on its `RequestProofPresentation` step,
then advances through the response and polls until the terminal state
"done". This function gives those verify-section transitions of the W3C
issue-and-verify flow. -/
def stepW3cVerifySection (s : W3cIssueFlowState) (e : W3cIssueFlowEvent) :
    W3cIssueFlowState × List AgentCommand :=
  match e with
  | .requestProofClicked =>
      if s.verifyStep = .RequestProofPresentation then
        ({ s with verifyStep := .WaitForRequestProofPresentation },
         [.sendW3cProofRequest s.connectionId s.issuerDid])
      else (s, [])
  | .proofRequestSent _ =>
      if s.verifyStep = .WaitForRequestProofPresentation then
        ({ s with verifyStep := .PresentProof }, [])
      else (s, [])
  | .presentationDone =>
      if s.verifyStep = .PresentProof then
        ({ s with verifyStep := .Done }, [])
      else (s, [])
  | _ => (s, [])

/-- Step function of the W3C issue-and-verify flow, from
w3c/IssueAndVerifyExampleFlow.tsx, EstablishConnectionAsInviter.tsx and
w3c/IssueCredential.tsx, delegating the verify-section events to
`stepW3cVerifySection`. The flow gates `issueStep` on
`connectionStep = Done` alone and `verifyStep` on `issueStep = Done`
(IssueAndVerifyExampleFlow.tsx 27-40). -/
def stepW3cIssueFlow (s : W3cIssueFlowState) (e : W3cIssueFlowEvent) :
    W3cIssueFlowState × List AgentCommand :=
  match e with
  | .connAliasChanged v =>
      if s.connectionStep = .SetConnectionAlias ∨ s.connectionStep = .CreateInvitation then
        ({ s with connectionAlias := v
                  connectionStep :=
                    if v.length > 0 then .CreateInvitation else .SetConnectionAlias }, [])
      else (s, [])
  | .createInvitationClicked =>
      if s.connectionStep = .CreateInvitation then
        ({ s with connectionStep := .WaitForInvitationCreation },
         [.createConnectionInvitation s.connectionAlias])
      else (s, [])
  | .invitationCreated cid =>
      if s.connectionStep = .WaitForInvitationCreation then
        ({ s with connectionId := cid, connectionStep := .AcceptInvitation }, [])
      else (s, [])
  | .connectionReady =>
      if s.connectionStep = .AcceptInvitation then
        ({ s with connectionStep := .Done, issueStep := .SetCredentialData }, [])
      else (s, [])
  | .attributeGivenNameChanged v =>
      if s.issueStep = .SetCredentialData ∨ s.issueStep = .SendCredentialOffer then
        ({ s with attributeGivenName := v
                  issueStep :=
                    if v.length > 0 ∧ s.attributeFamilyName.length > 0 then
                      .SendCredentialOffer
                    else .SetCredentialData }, [])
      else (s, [])
  | .attributeFamilyNameChanged v =>
      if s.issueStep = .SetCredentialData ∨ s.issueStep = .SendCredentialOffer then
        ({ s with attributeFamilyName := v
                  issueStep :=
                    if v.length > 0 ∧ s.attributeGivenName.length > 0 then
                      .SendCredentialOffer
                    else .SetCredentialData }, [])
      else (s, [])
  | .sendCredentialOfferClicked =>
      if s.issueStep = .SendCredentialOffer then
        ({ s with issueStep := .WaitForSendCredentialOffer },
         [.sendW3cCredentialOffer s.connectionId s.attributeGivenName
            s.attributeFamilyName])
      else (s, [])
  | .credentialOfferSent _ did =>
      if s.issueStep = .WaitForSendCredentialOffer then
        ({ s with issuerDid := did, issueStep := .AcceptCredential }, [])
      else (s, [])
  | .credentialIssued =>
      if s.issueStep = .AcceptCredential then
        ({ s with issueStep := .Done, verifyStep := .RequestProofPresentation }, [])
      else (s, [])
  | .requestProofClicked => stepW3cVerifySection s e
  | .proofRequestSent pid => stepW3cVerifySection s (.proofRequestSent pid)
  | .presentationDone => stepW3cVerifySection s e

/-- Run of the W3C issue-and-verify flow page from its initial state. -/
def runW3cIssueFlow (es : List W3cIssueFlowEvent) : W3cIssueFlowState :=
  es.foldl (fun s e => (stepW3cIssueFlow s e).1) initW3cIssueFlow

/-- Steps of EstablishConnectionAsInvitee (its ExampleStep enum). -/
inductive ConnInviteeStep where
  | SetConnectionAlias | SetInvitationUrl | AcceptInvitation
  | WaitForInvitationAcceptance | WaitForConnectionActive | Done
  deriving Repr, DecidableEq

/-- Steps of w3c/AcceptCredentialOffer (its ExampleStep enum). -/
inductive AcceptOfferStep where
  | StandbyUntilReadyToReceive | WaitToReceiveCredentialOffer
  | AcceptCredentialOffer | WaitForAcceptCredentialOffer
  | WaitToReceiveCredential | Done
  deriving Repr, DecidableEq

/-- Steps of w3c/PresentCredential (its ExampleStep enum). -/
inductive PresentStep where
  | StandbyUntilReadyToReceive | WaitToReceiveProofRequest
  | SendProofPresentation | WaitForSendProofPresentation
  | WaitForPresentationExchangeDoneState | Done
  deriving Repr, DecidableEq

/-- State of the W3C hold-and-prove flow page
(w3c/HoldAndProveExampleFlow.tsx). -/
structure W3cHoldFlowState where
  connectionStep : ConnInviteeStep
  acceptOfferStep : AcceptOfferStep
  presentStep : PresentStep
  connectionAlias : String
  invitationUrl : String
  connectionId : String
  credentialExchangeId : String
  credentialId : String
  presentationExchangeId : String
  deriving Repr, DecidableEq

/-- Initial state of the W3C hold-and-prove flow page. -/
def initW3cHoldFlow : W3cHoldFlowState :=
  { connectionStep := .SetConnectionAlias
    acceptOfferStep := .StandbyUntilReadyToReceive
    presentStep := .StandbyUntilReadyToReceive
    connectionAlias := ""
    invitationUrl := ""
    connectionId := ""
    credentialExchangeId := ""
    credentialId := ""
    presentationExchangeId := "" }

/-- Events of the W3C hold-and-prove flow. -/
inductive W3cHoldFlowEvent where
  | connAliasChanged (value : String)
  | invitationUrlChanged (value : String)
  | acceptInvitationClicked
  | invitationAccepted (connectionId : String)
  | connectionActiveReached
  | credentialOfferReceived (credentialExchangeId : String)
  | acceptOfferClicked
  | offerAccepted (holderDid : String)
  | credentialReceived (credentialId : String)
  | proofRequestReceived (presentationExchangeId : String)
  | sendPresentationClicked
  | presentationSent
  | presentationExchangeDone
  deriving Repr, DecidableEq

/-- Step function of the W3C hold-and-prove flow, from
w3c/HoldAndProveExampleFlow.tsx, EstablishConnectionAsInvitee.tsx,
w3c/AcceptCredentialOffer.tsx and w3c/PresentCredential.tsx. The flow
gates `acceptOfferStep` on `connectionStep = Done` and `presentStep` on
`acceptOfferStep = Done` (HoldAndProveExampleFlow.tsx 27-40). -/
def stepW3cHoldFlow (s : W3cHoldFlowState) (e : W3cHoldFlowEvent) :
    W3cHoldFlowState × List AgentCommand :=
  match e with
  | .connAliasChanged v =>
      if s.connectionStep = .SetConnectionAlias ∨ s.connectionStep = .SetInvitationUrl
          ∨ s.connectionStep = .AcceptInvitation then
        ({ s with connectionAlias := v
                  connectionStep :=
                    if v.length > 0 then
                      if s.invitationUrl.length > 0 then .AcceptInvitation
                      else .SetInvitationUrl
                    else .SetConnectionAlias }, [])
      else (s, [])
  | .invitationUrlChanged v =>
      if s.connectionStep = .SetConnectionAlias ∨ s.connectionStep = .SetInvitationUrl
          ∨ s.connectionStep = .AcceptInvitation then
        ({ s with invitationUrl := v
                  connectionStep :=
                    if v.length > 0 then
                      if s.connectionAlias.length > 0 then .AcceptInvitation
                      else .SetConnectionAlias
                    else .SetInvitationUrl }, [])
      else (s, [])
  | .acceptInvitationClicked =>
      if s.connectionStep = .AcceptInvitation then
        ({ s with connectionStep := .WaitForInvitationAcceptance },
         [.acceptConnectionInvitation s.connectionAlias s.invitationUrl])
      else (s, [])
  | .invitationAccepted cid =>
      if s.connectionStep = .WaitForInvitationAcceptance then
        ({ s with connectionId := cid, connectionStep := .WaitForConnectionActive }, [])
      else (s, [])
  | .connectionActiveReached =>
      if s.connectionStep = .WaitForConnectionActive then
        ({ s with connectionStep := .Done
                  acceptOfferStep := .WaitToReceiveCredentialOffer }, [])
      else (s, [])
  | .credentialOfferReceived ceid =>
      if s.acceptOfferStep = .WaitToReceiveCredentialOffer then
        ({ s with credentialExchangeId := ceid
                  acceptOfferStep := .AcceptCredentialOffer }, [])
      else (s, [])
  | .acceptOfferClicked =>
      if s.acceptOfferStep = .AcceptCredentialOffer then
        ({ s with acceptOfferStep := .WaitForAcceptCredentialOffer },
         [.acceptW3cCredentialOffer s.credentialExchangeId])
      else (s, [])
  | .offerAccepted _ =>
      if s.acceptOfferStep = .WaitForAcceptCredentialOffer then
        ({ s with acceptOfferStep := .WaitToReceiveCredential }, [])
      else (s, [])
  | .credentialReceived cid =>
      if s.acceptOfferStep = .WaitToReceiveCredential then
        ({ s with credentialId := cid
                  acceptOfferStep := .Done
                  presentStep := .WaitToReceiveProofRequest }, [])
      else (s, [])
  | .proofRequestReceived pid =>
      if s.presentStep = .WaitToReceiveProofRequest then
        ({ s with presentationExchangeId := pid
                  presentStep := .SendProofPresentation }, [])
      else (s, [])
  | .sendPresentationClicked =>
      if s.presentStep = .SendProofPresentation then
        ({ s with presentStep := .WaitForSendProofPresentation },
         [.sendW3cProofPresentation s.presentationExchangeId s.credentialId])
      else (s, [])
  | .presentationSent =>
      if s.presentStep = .WaitForSendProofPresentation then
        ({ s with presentStep := .WaitForPresentationExchangeDoneState }, [])
      else (s, [])
  | .presentationExchangeDone =>
      if s.presentStep = .WaitForPresentationExchangeDoneState then
        ({ s with presentStep := .Done }, [])
      else (s, [])

/-- Run of the W3C hold-and-prove flow page from its initial state. -/
def runW3cHoldFlow (es : List W3cHoldFlowEvent) : W3cHoldFlowState :=
  es.foldl (fun s e => (stepW3cHoldFlow s e).1) initW3cHoldFlow

/-! ## Invitation decoding (CloudAgent.acceptConnectionInvitation 170-209)

The source strips an optional URL prefix with
`invitationUrl.replace(/(https?:\/\/.*\?c_i=)?/i, "")`, base64-decodes
the remainder with the lenient Node `Buffer.from(s, "base64")`, and
parses the decoded text with `JSON.parse`; any exception in this block
is reported as the single validation error, before any SDK call. The
regex engine, the Node base64 decoder and `JSON.parse` are modelled
below. -/

/-- ASCII lowercasing, modelling the effect of the regex `/i` flag on
the pattern and input characters (all pattern characters are ASCII). -/
def asciiLower (c : Char) : Char :=
  if 65 ≤ c.toNat ∧ c.toNat ≤ 90 then Char.ofNat (c.toNat + 32) else c

/-- Case-insensitive prefix test: does the input start with the
pattern, compared via `asciiLower`. -/
def matchesCI : List Char → List Char → Bool
  | [], _ => true
  | _ :: _, [] => false
  | p :: ps, c :: cs => (asciiLower p == asciiLower c) && matchesCI ps cs

/-- Characters matchable by the JavaScript regex dot (everything except
the four line terminators). -/
def isJsDotChar (c : Char) : Bool :=
  !(c == Char.ofNat 10 || c == Char.ofNat 13
    || c == Char.ofNat 0x2028 || c == Char.ofNat 0x2029)

/-- The literal marker of the `c_i` query parameter in the pattern. -/
def ciMarker : List Char := ['?', 'c', '_', 'i', '=']

/-- Greedy search for the last occurrence of `?c_i=` (case-insensitive)
every character before which is matchable by the regex dot; returns the
suffix after that occurrence. This is what the backtracking of the
greedy `.*` in `/(https?:\/\/.*\?c_i=)?/i` selects. -/
def lastCiMarkerSuffix : List Char → Option (List Char)
  | [] => none
  | c :: cs =>
      match (if isJsDotChar c then lastCiMarkerSuffix cs else none) with
      | some r => some r
      | none =>
          if matchesCI ciMarker (c :: cs) then some ((c :: cs).drop 5)
          else none

/-- The two scheme literals of the pattern. -/
def httpSchemeChars : List Char := ['h', 't', 't', 'p', ':', '/', '/']

/-- The https scheme literal of the pattern. -/
def httpsSchemeChars : List Char := ['h', 't', 't', 'p', 's', ':', '/', '/']

/-- Embedding of
`invitationUrl.replace(/(https?:\/\/.*\?c_i=)?/i, "")`: the optional
group makes the pattern match at position 0 either as the whole scheme
plus everything up to the last reachable `?c_i=`, or as the empty
string; `replace` deletes that first match. -/
def stripInvitationHead (cs : List Char) : List Char :=
  if matchesCI httpSchemeChars cs then
    match lastCiMarkerSuffix (cs.drop 7) with
    | some r => r
    | none => cs
  else if matchesCI httpsSchemeChars cs then
    match lastCiMarkerSuffix (cs.drop 8) with
    | some r => r
    | none => cs
  else cs

/-- The digit alphabet accepted by the Node base64 decoder: the
standard alphabet plus the RFC 4648 section 5 URL-safe characters
'-' and '_' (padding excluded). -/
def isBase64Char (c : Char) : Bool :=
  (65 ≤ c.toNat ∧ c.toNat ≤ 90) || (97 ≤ c.toNat ∧ c.toNat ≤ 122)
    || (48 ≤ c.toNat ∧ c.toNat ≤ 57) || c == '+' || c == '/'
    || c == '-' || c == '_'

/-- An accepted base64 digit character or the padding character. -/
def isBase64OrPadChar (c : Char) : Bool :=
  isBase64Char c || c == '='

/-- Value of a base64 digit: the standard values, with the URL-safe
'-' and '_' decoding as 62 and 63 like their standard counterparts
'+' and '/'. -/
def base64Val (c : Char) : Nat :=
  if 65 ≤ c.toNat ∧ c.toNat ≤ 90 then c.toNat - 65
  else if 97 ≤ c.toNat ∧ c.toNat ≤ 122 then c.toNat - 97 + 26
  else if 48 ≤ c.toNat ∧ c.toNat ≤ 57 then c.toNat - 48 + 52
  else if c == '+' || c == '-' then 62
  else 63

/-- Reassemble 6-bit groups into bytes: complete quadruples give three
bytes, a trailing pair one byte, a trailing triple two bytes, and a
single leftover digit nothing (Node semantics). -/
def base64Groups : List Nat → List Nat
  | a :: b :: c :: d :: rest =>
      (a * 4 + b / 16) :: ((b % 16) * 16 + c / 4) :: ((c % 4) * 64 + d)
        :: base64Groups rest
  | [a, b] => [a * 4 + b / 16]
  | [a, b, c] => [a * 4 + b / 16, (b % 16) * 16 + c / 4]
  | _ => []

/-- Model of the lenient `Buffer.from(s, "base64")`: decoding stops at
the first padding character, every character outside the accepted
alphabet (standard plus URL-safe) is skipped, and the remaining digits
are reassembled into bytes; no input ever throws. -/
def base64Decode (cs : List Char) : List Nat :=
  base64Groups (((cs.takeWhile (· != '=')).filter isBase64Char).map base64Val)

/-- Model of `Buffer.toString()` for the decoded bytes: ASCII bytes map
to their characters; other bytes (continuation of multi-byte UTF-8
sequences, irrelevant to the JSON structure, which is pure ASCII) are
mapped to the replacement character. -/
def bytesToChars (bs : List Nat) : List Char :=
  bs.map (fun b => if b < 128 then Char.ofNat b else Char.ofNat 0xFFFD)

/-- JSON insignificant whitespace. -/
def jsonSkipWs (cs : List Char) : List Char :=
  cs.dropWhile (fun c => c == ' ' || c == '\t' || c == '\n' || c == '\r')

/-- Hexadecimal digit test for `\u` escapes. -/
def isHexDigitChar (c : Char) : Bool :=
  (48 ≤ c.toNat ∧ c.toNat ≤ 57) || (97 ≤ c.toNat ∧ c.toNat ≤ 102)
    || (65 ≤ c.toNat ∧ c.toNat ≤ 70)

/-- Decimal digit test. -/
def isDecDigitChar (c : Char) : Bool := 48 ≤ c.toNat ∧ c.toNat ≤ 57

/-- Consume the remainder of a JSON string literal, the opening quote
already consumed; returns the input after the closing quote. -/
def jsonStringTail : List Char → Option (List Char)
  | [] => none
  | '"' :: rest => some rest
  | '\\' :: rest =>
      match rest with
      | 'u' :: a :: b :: c :: d :: rest2 =>
          if isHexDigitChar a && isHexDigitChar b && isHexDigitChar c
              && isHexDigitChar d then
            jsonStringTail rest2
          else none
      | e :: rest2 =>
          if e == '"' || e == '\\' || e == '/' || e == 'b' || e == 'f'
              || e == 'n' || e == 'r' || e == 't' then
            jsonStringTail rest2
          else none
      | [] => none
  | c :: rest => if c.toNat < 0x20 then none else jsonStringTail rest

/-- Consume one or more decimal digits. -/
def jsonDigits1 : List Char → Option (List Char)
  | c :: rest =>
      if isDecDigitChar c then some (rest.dropWhile isDecDigitChar) else none
  | [] => none

/-- Consume a JSON number (int part without leading zeros, optional
fraction, optional exponent). -/
def jsonNumberTail (cs : List Char) : Option (List Char) :=
  let cs1 := match cs with
    | '-' :: rest => rest
    | _ => cs
  let intPart : Option (List Char) :=
    match cs1 with
    | '0' :: rest => some rest
    | c :: rest =>
        if isDecDigitChar c then some (rest.dropWhile isDecDigitChar) else none
    | [] => none
  match intPart with
  | none => none
  | some cs2 =>
      let cs3 : Option (List Char) :=
        match cs2 with
        | '.' :: rest => jsonDigits1 rest
        | _ => some cs2
      match cs3 with
      | none => none
      | some cs4 =>
          match cs4 with
          | 'e' :: rest | 'E' :: rest =>
              (match rest with
               | '+' :: rest2 | '-' :: rest2 => jsonDigits1 rest2
               | _ => jsonDigits1 rest)
          | _ => some cs4

mutual

/-- Consume one JSON value (fuel bounds the recursion depth). -/
def jsonValueTail : Nat → List Char → Option (List Char)
  | 0, _ => none
  | Nat.succ fuel, cs =>
      match jsonSkipWs cs with
      | 't' :: 'r' :: 'u' :: 'e' :: rest => some rest
      | 'f' :: 'a' :: 'l' :: 's' :: 'e' :: rest => some rest
      | 'n' :: 'u' :: 'l' :: 'l' :: rest => some rest
      | '"' :: rest => jsonStringTail rest
      | '[' :: rest =>
          (match jsonSkipWs rest with
           | ']' :: rest2 => some rest2
           | _ => jsonArrayTail fuel rest)
      | '{' :: rest =>
          (match jsonSkipWs rest with
           | '}' :: rest2 => some rest2
           | _ => jsonObjectTail fuel rest)
      | cs2 => jsonNumberTail cs2

/-- Consume the elements of a non-empty JSON array, the opening bracket
already consumed. -/
def jsonArrayTail : Nat → List Char → Option (List Char)
  | 0, _ => none
  | Nat.succ fuel, cs =>
      match jsonValueTail fuel cs with
      | none => none
      | some rest =>
          match jsonSkipWs rest with
          | ',' :: rest2 => jsonArrayTail fuel rest2
          | ']' :: rest2 => some rest2
          | _ => none

/-- Consume the members of a non-empty JSON object, the opening brace
already consumed. -/
def jsonObjectTail : Nat → List Char → Option (List Char)
  | 0, _ => none
  | Nat.succ fuel, cs =>
      match jsonSkipWs cs with
      | '"' :: rest =>
          (match jsonStringTail rest with
           | none => none
           | some rest2 =>
               match jsonSkipWs rest2 with
               | ':' :: rest3 =>
                   (match jsonValueTail fuel rest3 with
                    | none => none
                    | some rest4 =>
                        match jsonSkipWs rest4 with
                        | ',' :: rest5 => jsonObjectTail fuel rest5
                        | '}' :: rest5 => some rest5
                        | _ => none)
               | _ => none)
      | _ => none

end

/-- Model of `JSON.parse` success: the whole text is one JSON value
followed only by whitespace. The fuel bound exceeds any possible
nesting depth of the input. -/
def jsonParseable (cs : List Char) : Bool :=
  match jsonValueTail (cs.length + 1) cs with
  | some rest => jsonSkipWs rest == []
  | none => false

/-- The decoded invitation text produced from an invitation URL: prefix
strip, lenient base64 decode, and byte-to-text conversion. -/
def decodeInvitationText (invitationUrl : String) : List Char :=
  bytesToChars (base64Decode (stripInvitationHead invitationUrl.data))

/-- Observable outcome of `acceptConnectionInvitation`: the decoded
invitation body passed to `connectionsReceiveInvitationPost` if that SDK
command was issued, and the value returned or error thrown. -/
structure AcceptInvitationOutcome where
  commandBody : Option (List Char)
  result : Except String String
  deriving Repr

/-- Embedding of `CloudAgent.acceptConnectionInvitation` (CloudAgent.ts
170-209): decode the invitation; if decoding (in practice, `JSON.parse`)
fails, throw the single validation error without any SDK call;
otherwise issue the receive-invitation command and check the returned
connection id. The parsed invitation object is represented by its
decoded text, `JSON.parse` being deterministic. -/
def acceptConnectionInvitation (connectionAlias invitationUrl : String)
    (svcConnectionId : Option String) : AcceptInvitationOutcome :=
  let decoded := decodeInvitationText invitationUrl
  let _ := connectionAlias
  if jsonParseable decoded then
    if strTruthy svcConnectionId then
      { commandBody := some decoded, result := .ok (svcConnectionId.getD "") }
    else
      { commandBody := some decoded
        result := .error "Failed to accept connection invitation" }
  else
    { commandBody := none
      result := .error "Invalid invitationUrl: it is not base64 encoded" }

/-- Stage-ordering invariant of the AnonCreds issue-and-verify flow: the
issue section leaves standby only once the connection and publish
sections are done, and the verify section leaves standby only once the
issue section is done. -/
def AnoncredsFlowInv (s : AnoncredsFlowState) : Prop :=
  (s.issueStep ≠ .StandbyUntilReadyToIssue →
    s.connectionStep = .Done ∧ s.publishStep = .Done)
  ∧ (s.verifyStep ≠ .StandbyUntilReadyToVerify → s.issueStep = .Done)

/-- Stage-ordering invariant of the W3C issue-and-verify flow. -/
def W3cIssueFlowInv (s : W3cIssueFlowState) : Prop :=
  (s.issueStep ≠ .StandbyUntilReadyToIssue → s.connectionStep = .Done)
  ∧ (s.verifyStep ≠ .StandbyUntilReadyToVerify → s.issueStep = .Done)

/-- Stage-ordering invariant of the W3C hold-and-prove flow. -/
def W3cHoldFlowInv (s : W3cHoldFlowState) : Prop :=
  (s.acceptOfferStep ≠ .StandbyUntilReadyToReceive → s.connectionStep = .Done)
  ∧ (s.presentStep ≠ .StandbyUntilReadyToReceive → s.acceptOfferStep = .Done)

/-! ## Theorems -/

/-- Claim C1, counterexample. The claim states that for every poll of a
presentation exchange whose state has not reached its terminal value the
reported `verified` field is a tri-state Unknown, becoming True or False
only at the terminal state. In the source, `verified` is a two-valued
boolean, and for the AnonCreds endpoint it is computed as
`result.verified === "true"` with no state check at all: at the
non-terminal state "presentation_received" the endpoint already reports
the definite boolean `verified = true` when the service record carries
`verified = "true"`. -/
theorem c1_counterexample :
    getAnoncredsProofPresentationExchangeState "p1"
      { state := some "presentation_received", verified := some "true",
        revealedName := none, revealedExpiry := none } =
      .ok { presentationExchangeId := "p1", state := "presentation_received",
            revealedName := none, revealedExpiry := none, verified := true } := by
  rfl

/-- Claim C1, amended. The reported `verified` field is a two-valued
boolean, not a tri-state: the W3C endpoint reports `verified = true`
exactly when the state is the terminal "done" and the service record
carries `verified = "true"` (so it is `false`, not Unknown, at every
non-terminal state), while the AnonCreds endpoint simply mirrors the
comparison `result.verified === "true"` regardless of the state. -/
theorem c1_verified_is_boolean :
    (∀ (pid : String) (r : V20PresExRecord) (resp : W3cPresExStateResponse),
        getW3cProofPresentationExchangeState pid r = .ok resp →
        (resp.verified = true ↔ resp.state = "done" ∧ r.verified = some "true"))
    ∧ (∀ (pid : String) (r : V10PresExRecord)
          (resp : AnoncredsPresExStateResponse),
        getAnoncredsProofPresentationExchangeState pid r = .ok resp →
        resp.verified = (r.verified == some "true")) := by
  constructor
  · intro pid r resp h
    unfold getW3cProofPresentationExchangeState at h
    split at h
    · exact absurd h (by simp)
    · split at h
      · exact absurd h (by simp)
      · rename_i st hst
        split at h <;>
          · simp only [Except.ok.injEq] at h
            subst h
            simp [Bool.and_eq_true, beq_iff_eq, and_comm]
  · intro pid r resp h
    unfold getAnoncredsProofPresentationExchangeState at h
    split at h
    · exact absurd h (by simp)
    · split at h
      · exact absurd h (by simp)
      · simp only [Except.ok.injEq] at h
        subst h
        rfl

/-- Witness for c1_verified_is_boolean at concrete inputs: a W3C record
in state "done" with service verified "true", and an AnonCreds record in
state "presentation_received" with service verified absent. -/
theorem c1_verified_is_boolean_witness :
    (({ presentationExchangeId := "p1", state := "done",
        revealedGivenName := some "Alice", revealedFamilyName := some "Doe",
        verified := true } : W3cPresExStateResponse).verified = true ↔
      ({ presentationExchangeId := "p1", state := "done",
         revealedGivenName := some "Alice", revealedFamilyName := some "Doe",
         verified := true } : W3cPresExStateResponse).state = "done"
        ∧ (some "true" : Option String) = some "true")
    ∧ ({ presentationExchangeId := "p2", state := "presentation_received",
         revealedName := none, revealedExpiry := none,
         verified := false } : AnoncredsPresExStateResponse).verified =
        ((none : Option String) == some "true") := by
  constructor
  · exact c1_verified_is_boolean.1 "p1"
      { state := some "done", verified := some "true",
        revealedGivenName := some "Alice", revealedFamilyName := some "Doe" }
      _ rfl
  · exact c1_verified_is_boolean.2 "p2"
      { state := some "presentation_received", verified := none,
        revealedName := none, revealedExpiry := none }
      _ rfl

/-- Claim C2, counterexample. The claim states that a discovery query
with two or more candidates signals an AmbiguousStateError. In the
source, `results.length === 1` is the only filter: with two candidate
records both `getW3cCredentialOffer` and `getW3cProofRequest` return the
empty object, exactly as for zero candidates, and no error of any kind
is raised. -/
theorem c2_counterexample :
    getW3cCredentialOffer "c1"
      [⟨some ⟨some "e1", some "Alice", some "Doe"⟩⟩,
       ⟨some ⟨some "e2", some "Bob", some "Roe"⟩⟩] = .ok none
    ∧ getW3cProofRequest "c1" [⟨some "p1"⟩, ⟨some "p2"⟩] = .ok none := by
  exact ⟨rfl, rfl⟩

/-- Claim C2, amended. A discovery query returns the empty object both
when the Agent Service reports zero candidates and when it reports two
or more candidates: no candidate is selected, but the ambiguity is
resolved silently to the empty result rather than signalled as an
AmbiguousStateError (no such error exists in the source). -/
theorem c2_discovery_returns_empty :
    (∀ (cid : String) (results : List V20CredExRecordItem),
        cid.length ≠ 0 → results.length ≠ 1 →
        getW3cCredentialOffer cid results = .ok none)
    ∧ (∀ (cid : String) (results : List V20PresExRecordItem),
        cid.length ≠ 0 → results.length ≠ 1 →
        getW3cProofRequest cid results = .ok none) := by
  constructor
  · intro cid results hcid hlen
    unfold getW3cCredentialOffer
    rw [if_neg hcid, if_neg hlen]
  · intro cid results hcid hlen
    unfold getW3cProofRequest
    rw [if_neg hcid, if_neg hlen]

/-- Witness for c2_discovery_returns_empty: zero candidates for the
offer query, two candidates for the proof-request query. -/
theorem c2_discovery_returns_empty_witness :
    getW3cCredentialOffer "c9" [] = .ok none
    ∧ getW3cProofRequest "c9" [⟨some "p8"⟩, ⟨some "p9"⟩] = .ok none := by
  exact ⟨c2_discovery_returns_empty.1 "c9" [] (by decide) (by decide),
         c2_discovery_returns_empty.2 "c9" _ (by decide) (by decide)⟩

/-- Claim C3, counterexample. The claim states that a query error does
not abort an in-progress poll loop, which retries after the same
interval. In the source the poll loops contain no try/catch and
`HttpToBackend.httpRequest` adds no error handling, so a rejected query
terminates the whole async poll function: with an error first in the
trace, the loop aborts at once, and the successful terminal response
right behind it is never polled. -/
theorem c3_counterexample :
    pollLoop (fun r : ConnStateResponse => inviterConnectionReady r.state)
      [.error "network request failed",
       .ok { connectionId := "c1", state := "active" }] =
      .aborted [] "network request failed" := by
  rfl

/-- Claim C3, amended. A query error immediately terminates the
in-progress poll loop: after any number of successful non-terminal
polls, the first rejected query aborts the loop with exactly the
updates delivered so far, no retry happens, and the rest of the trace
is never queried (the result does not depend on it). -/
theorem c3_poll_error_aborts :
    ∀ (p : ConnStateResponse → Bool) (pre : List ConnStateResponse)
      (e : String) (rest : List (Except String ConnStateResponse)),
      pre.all (fun a => !p a) = true →
      pollLoop p (pre.map .ok ++ .error e :: rest) = .aborted pre e := by
  intro p pre e rest hpre
  induction pre with
  | nil => rfl
  | cons a pre ih =>
      simp only [List.all_cons, Bool.and_eq_true, Bool.not_eq_eq_eq_not,
        Bool.not_true] at hpre
      obtain ⟨ha, hpre⟩ := hpre
      simp only [List.map_cons, List.cons_append, pollLoop, ha, Bool.false_eq_true,
        if_false, List.append_eq, ih hpre]

/-- Witness for c3_poll_error_aborts: one successful non-terminal poll,
then a rejected query, with a successful terminal response behind it. -/
theorem c3_poll_error_aborts_witness :
    pollLoop (fun r : ConnStateResponse => connectionActive r.state)
      [.ok { connectionId := "c2", state := "request" },
       .error "HTTP 502",
       .ok { connectionId := "c2", state := "active" }] =
      .aborted [{ connectionId := "c2", state := "request" }] "HTTP 502" := by
  exact c3_poll_error_aborts _ [{ connectionId := "c2", state := "request" }]
    "HTTP 502" [.ok { connectionId := "c2", state := "active" }] (by decide)

/-- Claim C4, counterexample. The claim states that after a flow
instance is torn down no further onUpdate or completion call is made by
any poller it started. In the source nothing implements this: the
effects that start the poll loops return no cleanup function and the
loops consult no cancellation flag, so even with the flow torn down
before any poll (`tornDownAfter = some 0`) the poller still delivers
both updates and the completion signal. -/
theorem c4_counterexample :
    pollLoopWithTeardown (some 0)
      (fun r : ConnStateResponse => connectionActive r.state)
      [.ok { connectionId := "c1", state := "request" },
       .ok { connectionId := "c1", state := "active" }] =
      .completed [{ connectionId := "c1", state := "request" },
                  { connectionId := "c1", state := "active" }] := by
  rfl

/-- Claim C4, amended. Teardown does not cancel pollers: the repository
has no cancellation mechanism, so the updates and completion a poll
loop delivers are computed from its query trace alone, independent of
any teardown point, and a successful query result arriving after
teardown is still applied as the next update. -/
theorem c4_no_cancellation :
    (∀ (t : Option Nat) (p : ConnStateResponse → Bool)
        (trace : List (Except String ConnStateResponse)),
        pollLoopWithTeardown t p trace = pollLoop p trace)
    ∧ (∀ (t : Option Nat) (p : ConnStateResponse → Bool)
          (a : ConnStateResponse) (rest : List (Except String ConnStateResponse)),
        (pollLoopWithTeardown t p (.ok a :: rest)).updates.head? = some a) := by
  constructor
  · intro t p trace
    rfl
  · intro t p a rest
    show (pollLoop p (.ok a :: rest)).updates.head? = some a
    by_cases h : p a
    · simp [pollLoop, h, LoopOutcome.updates]
    · simp only [pollLoop, h, Bool.false_eq_true, if_false]
      cases pollLoop p rest <;> simp [LoopOutcome.updates]

/-- Helper: a state poll loop whose trace starts with states rejected by
the predicate followed by an accepted state delivers exactly that prefix
and hands back the rest of the trace. -/
theorem pollStatesUntil_split (p : String → Bool) (pre : List String)
    (r : String) (post : List String)
    (hpre : pre.all (fun st => !p st) = true) (hr : p r = true) :
    pollStatesUntil p (pre ++ r :: post) = (pre ++ [r], some post) := by
  induction pre with
  | nil => simp [pollStatesUntil, hr]
  | cons a pre ih =>
      simp only [List.all_cons, Bool.and_eq_true, Bool.not_eq_eq_eq_not,
        Bool.not_true] at hpre
      obtain ⟨ha, hpre⟩ := hpre
      simp [pollStatesUntil, ha, ih hpre]

/-- Helper: a state poll loop whose trace never satisfies the predicate
delivers the whole trace and never reaches the predicate. -/
theorem pollStatesUntil_exhausts (p : String → Bool) (trace : List String)
    (h : trace.all (fun st => !p st) = true) :
    pollStatesUntil p trace = (trace, none) := by
  induction trace with
  | nil => rfl
  | cons a trace ih =>
      simp only [List.all_cons, Bool.and_eq_true, Bool.not_eq_eq_eq_not,
        Bool.not_true] at h
      obtain ⟨ha, h⟩ := h
      simp [pollStatesUntil, ha, ih h]

/-- Claim C6, confirmed. The connection-exchange terminal predicate is
role-asymmetric: the inviter ready predicate accepts "response" or
"active", after which the inviter poll signals completion and keeps
polling the remaining trace (display only) towards "active"; the
invitee predicate accepts exactly "active", so a trace without "active"
never signals the connection as established. -/
theorem c6_role_asymmetric_ready :
    (∀ st : String, inviterConnectionReady st = true ↔
        st = "response" ∨ st = "active")
    ∧ (∀ st : String, connectionActive st = true ↔ st = "active")
    ∧ (∀ pre post : List String,
        pre.all (fun st => !inviterConnectionReady st) = true →
        inviterPollConnectionState (pre ++ "response" :: post) =
          { updatesBeforeReady := pre ++ ["response"], readySignalled := true,
            updatesAfterReady := (pollStatesUntil connectionActive post).1 })
    ∧ (∀ trace : List String, trace.all (fun st => !connectionActive st) = true →
        inviteePollConnectionState trace = (trace, false)) := by
  refine ⟨?_, ?_, ?_, ?_⟩
  · intro st
    simp [inviterConnectionReady]
  · intro st
    simp [connectionActive]
  · intro pre post hpre
    unfold inviterPollConnectionState
    rw [pollStatesUntil_split inviterConnectionReady pre "response" post hpre
      (by decide)]
  · intro trace h
    unfold inviteePollConnectionState
    rw [pollStatesUntil_exhausts connectionActive trace h]

/-- Witness for c6_role_asymmetric_ready: the inviter signals at the
first "response" of a realistic trace and keeps polling to "active",
while the invitee run over a trace ending in "response" does not signal. -/
theorem c6_role_asymmetric_ready_witness :
    inviterPollConnectionState ["invitation", "request", "response", "response",
        "active"] =
      { updatesBeforeReady := ["invitation", "request", "response"],
        readySignalled := true,
        updatesAfterReady := ["response", "active"] }
    ∧ inviteePollConnectionState ["invitation", "request", "response"] =
        (["invitation", "request", "response"], false) := by
  constructor
  · exact c6_role_asymmetric_ready.2.2.1 ["invitation", "request"]
      ["response", "active"] (by decide)
  · exact c6_role_asymmetric_ready.2.2.2 ["invitation", "request", "response"]
      (by decide)

/-- Claim C7, counterexample. The claim states that a component fed an
out-of-order (backward) state rejects or flags it. In the source no
component validates ordering: the verifier poll loop fed the backward
sequence "presentation_received", then "request_sent", then "verified"
delivers every state verbatim to the UI, completes normally at the
terminal predicate, and rejects or flags nothing. -/
theorem c7_counterexample :
    pollLoop (fun r : AnoncredsPresExStateResponse => r.state == "verified")
      [.ok { presentationExchangeId := "p1", state := "presentation_received",
             revealedName := some "Alice", revealedExpiry := none,
             verified := false },
       .ok { presentationExchangeId := "p1", state := "request_sent",
             revealedName := none, revealedExpiry := none, verified := false },
       .ok { presentationExchangeId := "p1", state := "verified",
             revealedName := some "Alice", revealedExpiry := some "2030",
             verified := true }] =
      .completed
        [{ presentationExchangeId := "p1", state := "presentation_received",
           revealedName := some "Alice", revealedExpiry := none,
           verified := false },
         { presentationExchangeId := "p1", state := "request_sent",
           revealedName := none, revealedExpiry := none, verified := false },
         { presentationExchangeId := "p1", state := "verified",
           revealedName := some "Alice", revealedExpiry := some "2030",
           verified := true }] := by
  rfl

/-- Claim C7, amended. The components perform no ordering validation:
whatever sequence of states successive polls return, monotone or not,
the loop delivers exactly that sequence to the UI in the order received
and terminates at the first state satisfying the terminal predicate;
monotonicity is a property assumed of the Agent Service, not checked by
this system. -/
theorem c7_no_order_validation :
    ∀ (p : AnoncredsPresExStateResponse → Bool)
      (pre : List AnoncredsPresExStateResponse)
      (t : AnoncredsPresExStateResponse),
      pre.all (fun a => !p a) = true → p t = true →
      pollLoop p (pre.map .ok ++ [.ok t]) = .completed (pre ++ [t]) := by
  intro p pre t hpre ht
  induction pre with
  | nil => simp [pollLoop, ht]
  | cons a pre ih =>
      simp only [List.all_cons, Bool.and_eq_true, Bool.not_eq_eq_eq_not,
        Bool.not_true] at hpre
      obtain ⟨ha, hpre⟩ := hpre
      simp only [List.map_cons, List.cons_append, pollLoop, ha,
        Bool.false_eq_true, if_false, List.append_eq, ih hpre]

/-- Witness for c7_no_order_validation at a backward two-step prefix. -/
theorem c7_no_order_validation_witness :
    pollLoop (fun r : AnoncredsPresExStateResponse => r.state == "verified")
      [.ok { presentationExchangeId := "p2", state := "presentation_sent",
             revealedName := none, revealedExpiry := none, verified := false },
       .ok { presentationExchangeId := "p2", state := "request_received",
             revealedName := none, revealedExpiry := none, verified := false },
       .ok { presentationExchangeId := "p2", state := "verified",
             revealedName := some "Bob", revealedExpiry := some "2031",
             verified := true }] =
      .completed
        [{ presentationExchangeId := "p2", state := "presentation_sent",
           revealedName := none, revealedExpiry := none, verified := false },
         { presentationExchangeId := "p2", state := "request_received",
           revealedName := none, revealedExpiry := none, verified := false },
         { presentationExchangeId := "p2", state := "verified",
           revealedName := some "Bob", revealedExpiry := some "2031",
           verified := true }] := by
  exact c7_no_order_validation _
    [{ presentationExchangeId := "p2", state := "presentation_sent",
       revealedName := none, revealedExpiry := none, verified := false },
     { presentationExchangeId := "p2", state := "request_received",
       revealedName := none, revealedExpiry := none, verified := false }]
    _ (by decide) (by decide)

/-- Claim C8, counterexample. The claim states that createInvitation
fails with a ValidationError for an empty alias and submitPresentation
fails when either id is empty. In the source `createConnectionInvitation`
contains no alias validation at all — with an empty alias the SDK
command is still issued and, on a well-formed service response, the call
succeeds — and `sendW3cProofPresentation` checks only the presentation
exchange id: with an empty credential id the command is still issued and
the call succeeds. -/
theorem c8_counterexample :
    (createConnectionInvitation ""
        { connection_id := some "c1", invitation_url := some "http://inv" }).commandAlias
      = some ""
    ∧ (createConnectionInvitation ""
        { connection_id := some "c1", invitation_url := some "http://inv" }).result
      = .ok { connectionId := "c1", invitationUrl := "http://inv" }
    ∧ (sendW3cProofPresentation "p1" "" (some "presentation-sent")).commandIds
      = some ("p1", "")
    ∧ (sendW3cProofPresentation "p1" "" (some "presentation-sent")).result
      = .ok { presentationExchangeId := "p1", state := "presentation-sent" } := by
  exact ⟨rfl, rfl, rfl, rfl⟩

/-- Claim C8, amended. `createConnectionInvitation` performs no local
validation of the alias: the Agent Service command is issued for every
alias, the empty one included. `sendW3cProofPresentation` validates only
`presentationExchangeId` — failing, without issuing the command, exactly
when it is empty — and passes `credentialId` through unchecked. -/
theorem c8_local_validation :
    (∀ (a : String) (svc : ConnectionsCreateInvitationResult),
        (createConnectionInvitation a svc).commandAlias = some a)
    ∧ (∀ (cid : String) (svcState : Option String),
        sendW3cProofPresentation "" cid svcState =
          { commandIds := none
            result := .error "Missing required param \"presentationExchangeId\"" })
    ∧ (∀ (pid cid : String) (svcState : Option String), pid.length ≠ 0 →
        (sendW3cProofPresentation pid cid svcState).commandIds = some (pid, cid)) := by
  refine ⟨?_, ?_, ?_⟩
  · intro a svc
    unfold createConnectionInvitation
    split <;> rfl
  · intro cid svcState
    rfl
  · intro pid cid svcState h
    unfold sendW3cProofPresentation
    rw [if_neg h]

/-- Witness for c8_local_validation at concrete inputs. -/
theorem c8_local_validation_witness :
    (createConnectionInvitation "Org-A"
        { connection_id := some "c7", invitation_url := some "u7" }).commandAlias
      = some "Org-A"
    ∧ sendW3cProofPresentation "" "cred-3" (some "done") =
        { commandIds := none
          result := .error "Missing required param \"presentationExchangeId\"" }
    ∧ (sendW3cProofPresentation "p7" "cred-3" (some "done")).commandIds
      = some ("p7", "cred-3") := by
  exact ⟨c8_local_validation.1 "Org-A" _,
         c8_local_validation.2.1 "cred-3" (some "done"),
         c8_local_validation.2.2 "p7" "cred-3" (some "done") (by decide)⟩

/-- Helper: a successful `postW3cCredentialRequest` call returns exactly
the DID the wallet created during that call and advances the DID call
counter by one. -/
theorem postW3cCredentialRequest_ok (cid : String) (env : WalletEnv) (n : Nat)
    (d : String) (h : (postW3cCredentialRequest cid env n).1 = .ok d) :
    env.didAt n = some d ∧ (postW3cCredentialRequest cid env n).2 = n + 1 := by
  by_cases hid : cid.length = 0
  · simp [postW3cCredentialRequest, hid] at h
  · rcases hdn : env.didAt n with _ | did
    · simp [postW3cCredentialRequest, hid, hdn] at h
    · by_cases hdid : did.length = 0
      · simp [postW3cCredentialRequest, hid, hdn, hdid] at h
      · by_cases herr : strTruthy (env.sendRequestErrorMsg cid) = true
        · simp [postW3cCredentialRequest, hid, hdn, hdid, herr] at h
        · simp [postW3cCredentialRequest, hid, hdn, hdid, herr] at h
          subst h
          simp [postW3cCredentialRequest, hid, hdn, hdid, herr]

/-- Claim C9, confirmed. Every successful `postW3cCredentialRequest`
call performs exactly one fresh wallet DID creation, advancing the
per-session call counter, and returns precisely the DID created during
that call — nothing is cached or reused. Consequently, whenever the
wallet returns distinct DIDs for the two consecutive creations (its
documented freshness contract), two successive accepted credentials get
distinct holder identifiers. -/
theorem c9_fresh_holder_did :
    ∀ (env : WalletEnv) (n : Nat) (id1 id2 d1 d2 : String),
      (postW3cCredentialRequest id1 env n).1 = .ok d1 →
      (postW3cCredentialRequest id2 env (postW3cCredentialRequest id1 env n).2).1
        = .ok d2 →
      env.didAt n ≠ env.didAt (n + 1) →
      env.didAt n = some d1 ∧ env.didAt (n + 1) = some d2
        ∧ (postW3cCredentialRequest id1 env n).2 = n + 1 ∧ d1 ≠ d2 := by
  intro env n id1 id2 d1 d2 h1 h2 hfresh
  obtain ⟨hd1, hc1⟩ := postW3cCredentialRequest_ok id1 env n d1 h1
  rw [hc1] at h2
  obtain ⟨hd2, _⟩ := postW3cCredentialRequest_ok id2 env (n + 1) d2 h2
  refine ⟨hd1, hd2, hc1, ?_⟩
  intro hdd
  exact hfresh (by rw [hd1, hd2, hdd])

/-- Witness for c9_fresh_holder_did: a wallet that returns "didA" on its
first creation and "didB" afterwards, and two successive accepted
credentials. -/
theorem c9_fresh_holder_did_witness :
    (({ didAt := fun k => if k = 0 then some "didA" else some "didB",
        sendRequestErrorMsg := fun _ => none } : WalletEnv).didAt 0 = some "didA")
    ∧ (({ didAt := fun k => if k = 0 then some "didA" else some "didB",
          sendRequestErrorMsg := fun _ => none } : WalletEnv).didAt 1 = some "didB")
    ∧ (postW3cCredentialRequest "e1"
        { didAt := fun k => if k = 0 then some "didA" else some "didB",
          sendRequestErrorMsg := fun _ => none } 0).2 = 1
    ∧ ("didA" : String) ≠ "didB" := by
  have h := c9_fresh_holder_did
    { didAt := fun k => if k = 0 then some "didA" else some "didB",
      sendRequestErrorMsg := fun _ => none }
    0 "e1" "e2" "didA" "didB" rfl rfl (by decide)
  exact ⟨h.1, by simp only [Nat.zero_add] at h ⊢; exact h.2.1, h.2.2.1, h.2.2.2⟩

/-- Helper: one step of the AnonCreds flow preserves the stage-ordering
invariant. -/
theorem stepAnoncredsFlow_inv (s : AnoncredsFlowState) (e : AnoncredsFlowEvent)
    (h : AnoncredsFlowInv s) : AnoncredsFlowInv (stepAnoncredsFlow s e).1 := by
  obtain ⟨h1, h2⟩ := h
  unfold AnoncredsFlowInv
  cases e <;> simp only [stepAnoncredsFlow] <;> split_ifs <;>
    refine ⟨fun hne => ?_, fun hne => ?_⟩ <;> simp_all <;>
    exact h1 (by rcases ‹s.issueStep = _ ∨ s.issueStep = _› with hi | hi <;> simp [hi])

/-- Helper: one step of the W3C issue-and-verify flow preserves the
stage-ordering invariant. -/
theorem stepW3cIssueFlow_inv (s : W3cIssueFlowState) (e : W3cIssueFlowEvent)
    (h : W3cIssueFlowInv s) : W3cIssueFlowInv (stepW3cIssueFlow s e).1 := by
  obtain ⟨h1, h2⟩ := h
  unfold W3cIssueFlowInv
  cases e <;> simp only [stepW3cIssueFlow, stepW3cVerifySection] <;> split_ifs <;>
    refine ⟨fun hne => ?_, fun hne => ?_⟩ <;> simp_all <;>
    exact h1 (by rcases ‹s.issueStep = _ ∨ s.issueStep = _› with hi | hi <;> simp [hi])

/-- Helper: one step of the W3C hold-and-prove flow preserves the
stage-ordering invariant. -/
theorem stepW3cHoldFlow_inv (s : W3cHoldFlowState) (e : W3cHoldFlowEvent)
    (h : W3cHoldFlowInv s) : W3cHoldFlowInv (stepW3cHoldFlow s e).1 := by
  obtain ⟨h1, h2⟩ := h
  unfold W3cHoldFlowInv
  cases e <;> simp only [stepW3cHoldFlow] <;> split_ifs <;>
    refine ⟨fun hne => ?_, fun hne => ?_⟩ <;> simp_all

/-- Helper: the stage-ordering invariant holds in every reachable state
of the AnonCreds flow. -/
theorem runAnoncredsFlow_inv (es : List AnoncredsFlowEvent) :
    AnoncredsFlowInv (runAnoncredsFlow es) := by
  have key : ∀ (l : List AnoncredsFlowEvent) (s : AnoncredsFlowState),
      AnoncredsFlowInv s →
      AnoncredsFlowInv (l.foldl (fun s e => (stepAnoncredsFlow s e).1) s) := by
    intro l
    induction l with
    | nil => exact fun s hs => hs
    | cons e l ih => exact fun s hs => ih _ (stepAnoncredsFlow_inv s e hs)
  exact key es initAnoncredsFlow (by unfold AnoncredsFlowInv initAnoncredsFlow; simp)

/-- Helper: the stage-ordering invariant holds in every reachable state
of the W3C issue-and-verify flow. -/
theorem runW3cIssueFlow_inv (es : List W3cIssueFlowEvent) :
    W3cIssueFlowInv (runW3cIssueFlow es) := by
  have key : ∀ (l : List W3cIssueFlowEvent) (s : W3cIssueFlowState),
      W3cIssueFlowInv s →
      W3cIssueFlowInv (l.foldl (fun s e => (stepW3cIssueFlow s e).1) s) := by
    intro l
    induction l with
    | nil => exact fun s hs => hs
    | cons e l ih => exact fun s hs => ih _ (stepW3cIssueFlow_inv s e hs)
  exact key es initW3cIssueFlow (by unfold W3cIssueFlowInv initW3cIssueFlow; simp)

/-- Helper: the stage-ordering invariant holds in every reachable state
of the W3C hold-and-prove flow. -/
theorem runW3cHoldFlow_inv (es : List W3cHoldFlowEvent) :
    W3cHoldFlowInv (runW3cHoldFlow es) := by
  have key : ∀ (l : List W3cHoldFlowEvent) (s : W3cHoldFlowState),
      W3cHoldFlowInv s →
      W3cHoldFlowInv (l.foldl (fun s e => (stepW3cHoldFlow s e).1) s) := by
    intro l
    induction l with
    | nil => exact fun s hs => hs
    | cons e l ih => exact fun s hs => ih _ (stepW3cHoldFlow_inv s e hs)
  exact key es initW3cHoldFlow (by unfold W3cHoldFlowInv initW3cHoldFlow; simp)

/-- Claim C5, counterexample. The claim states that an attempt to start
a stage before its prerequisite raises a guard error rather than being
silently ignored. In the source every such handler begins with
`if (step !== X) return;`: clicking the send-credential-offer button in
the initial state of the AnonCreds flow leaves the state unchanged,
issues no command, and produces no error of any kind — the step function
has no error output at all. -/
theorem c5_counterexample :
    stepAnoncredsFlow initAnoncredsFlow .sendCredentialOfferClicked =
      (initAnoncredsFlow, []) := by
  rfl

/-- Claim C5, amended. In every flow variant the credential stage cannot
leave standby before the connection stage (and, for AnonCreds, the
publish stage) is done, and the presentation stage cannot leave standby
before the credential stage is done — a strict ordering enforced by
gating on observed state. An attempt to start a stage before its
prerequisite, however, is silently ignored (the handler returns with no
state change and no command), not rejected with a guard error. -/
theorem c5_stage_gating :
    (∀ es : List AnoncredsFlowEvent,
        (runAnoncredsFlow es).issueStep ≠ .StandbyUntilReadyToIssue →
        (runAnoncredsFlow es).connectionStep = .Done
          ∧ (runAnoncredsFlow es).publishStep = .Done)
    ∧ (∀ es : List AnoncredsFlowEvent,
        (runAnoncredsFlow es).verifyStep ≠ .StandbyUntilReadyToVerify →
        (runAnoncredsFlow es).issueStep = .Done)
    ∧ (∀ es : List W3cIssueFlowEvent,
        (runW3cIssueFlow es).issueStep ≠ .StandbyUntilReadyToIssue →
        (runW3cIssueFlow es).connectionStep = .Done)
    ∧ (∀ es : List W3cIssueFlowEvent,
        (runW3cIssueFlow es).verifyStep ≠ .StandbyUntilReadyToVerify →
        (runW3cIssueFlow es).issueStep = .Done)
    ∧ (∀ es : List W3cHoldFlowEvent,
        (runW3cHoldFlow es).acceptOfferStep ≠ .StandbyUntilReadyToReceive →
        (runW3cHoldFlow es).connectionStep = .Done)
    ∧ (∀ es : List W3cHoldFlowEvent,
        (runW3cHoldFlow es).presentStep ≠ .StandbyUntilReadyToReceive →
        (runW3cHoldFlow es).acceptOfferStep = .Done)
    ∧ (∀ s : AnoncredsFlowState, s.issueStep ≠ .SendCredentialOffer →
        stepAnoncredsFlow s .sendCredentialOfferClicked = (s, []))
    ∧ (∀ s : W3cIssueFlowState, s.issueStep ≠ .SendCredentialOffer →
        stepW3cIssueFlow s .sendCredentialOfferClicked = (s, []))
    ∧ (∀ s : W3cHoldFlowState, s.acceptOfferStep ≠ .AcceptCredentialOffer →
        stepW3cHoldFlow s .acceptOfferClicked = (s, [])) := by
  refine ⟨fun es => (runAnoncredsFlow_inv es).1,
          fun es => (runAnoncredsFlow_inv es).2,
          fun es => (runW3cIssueFlow_inv es).1,
          fun es => (runW3cIssueFlow_inv es).2,
          fun es => (runW3cHoldFlow_inv es).1,
          fun es => (runW3cHoldFlow_inv es).2,
          ?_, ?_, ?_⟩
  · intro s hs
    simp only [stepAnoncredsFlow, if_neg hs]
  · intro s hs
    simp only [stepW3cIssueFlow, if_neg hs]
  · intro s hs
    simp only [stepW3cHoldFlow, if_neg hs]

/-- Witness for c5_stage_gating: a complete successful run prefix of
each flow, and an early click in each initial state. -/
theorem c5_stage_gating_witness :
    ((runAnoncredsFlow [.connAliasChanged "a", .createInvitationClicked,
        .invitationCreated "c1", .publishSchemaClicked, .schemaPublished "s1",
        .publishCredDefClicked, .credDefPublished "d1",
        .connectionReady]).connectionStep = .Done
      ∧ (runAnoncredsFlow [.connAliasChanged "a", .createInvitationClicked,
          .invitationCreated "c1", .publishSchemaClicked, .schemaPublished "s1",
          .publishCredDefClicked, .credDefPublished "d1",
          .connectionReady]).publishStep = .Done)
    ∧ (runAnoncredsFlow [.connAliasChanged "a", .createInvitationClicked,
        .invitationCreated "c1", .publishSchemaClicked, .schemaPublished "s1",
        .publishCredDefClicked, .credDefPublished "d1", .connectionReady,
        .attributeNameChanged "Alice", .attributeExpiryChanged "2030",
        .sendCredentialOfferClicked, .credentialOfferSent "e1",
        .credentialIssued]).issueStep = .Done
    ∧ (runW3cIssueFlow [.connAliasChanged "a", .createInvitationClicked,
        .invitationCreated "c1", .connectionReady]).connectionStep = .Done
    ∧ (runW3cIssueFlow [.connAliasChanged "a", .createInvitationClicked,
        .invitationCreated "c1", .connectionReady,
        .attributeGivenNameChanged "Alice", .attributeFamilyNameChanged "Doe",
        .sendCredentialOfferClicked, .credentialOfferSent "e1" "did:x",
        .credentialIssued]).issueStep = .Done
    ∧ (runW3cHoldFlow [.connAliasChanged "a", .invitationUrlChanged "u",
        .acceptInvitationClicked, .invitationAccepted "c1",
        .connectionActiveReached]).connectionStep = .Done
    ∧ (runW3cHoldFlow [.connAliasChanged "a", .invitationUrlChanged "u",
        .acceptInvitationClicked, .invitationAccepted "c1",
        .connectionActiveReached, .credentialOfferReceived "e1",
        .acceptOfferClicked, .offerAccepted "did:y",
        .credentialReceived "cr1"]).acceptOfferStep = .Done
    ∧ stepAnoncredsFlow initAnoncredsFlow .sendCredentialOfferClicked =
        (initAnoncredsFlow, [])
    ∧ stepW3cIssueFlow initW3cIssueFlow .sendCredentialOfferClicked =
        (initW3cIssueFlow, [])
    ∧ stepW3cHoldFlow initW3cHoldFlow .acceptOfferClicked =
        (initW3cHoldFlow, []) := by
  refine ⟨c5_stage_gating.1 _ (by decide),
          c5_stage_gating.2.1 _ (by decide),
          c5_stage_gating.2.2.1 _ (by decide),
          c5_stage_gating.2.2.2.1 _ (by decide),
          c5_stage_gating.2.2.2.2.1 _ (by decide),
          c5_stage_gating.2.2.2.2.2.1 _ (by decide),
          c5_stage_gating.2.2.2.2.2.2.1 _ (by decide),
          c5_stage_gating.2.2.2.2.2.2.2.1 _ (by decide),
          c5_stage_gating.2.2.2.2.2.2.2.2 _ (by decide)⟩
/-- Helper: `Char.ofNat` of a scalar value below the surrogate range
round-trips through `toNat`. -/
theorem toNat_ofNat_of_lt (n : Nat) (h : n < 55296) : (Char.ofNat n).toNat = n := by
  unfold Char.ofNat
  split
  · rfl
  · omega

/-- Helper: the code point facts of an accepted base64-or-padding
character. -/
theorem isBase64OrPadChar_toNat (c : Char) (h : isBase64OrPadChar c = true) :
    (65 ≤ c.toNat ∧ c.toNat ≤ 90) ∨ (97 ≤ c.toNat ∧ c.toNat ≤ 122)
      ∨ (48 ≤ c.toNat ∧ c.toNat ≤ 57) ∨ c.toNat = 43 ∨ c.toNat = 47
      ∨ c.toNat = 45 ∨ c.toNat = 95 ∨ c.toNat = 61 := by
  simp only [isBase64OrPadChar, isBase64Char, Bool.or_eq_true, decide_eq_true_eq,
    beq_iff_eq] at h
  rcases h with ((((((h | h) | h) | h) | h) | h) | h) | h
  · exact Or.inl h
  · exact Or.inr (Or.inl h)
  · exact Or.inr (Or.inr (Or.inl h))
  · exact Or.inr (Or.inr (Or.inr (Or.inl (by rw [h]; rfl))))
  · exact Or.inr (Or.inr (Or.inr (Or.inr (Or.inl (by rw [h]; rfl)))))
  · exact Or.inr (Or.inr (Or.inr (Or.inr (Or.inr (Or.inl (by rw [h]; rfl))))))
  · exact Or.inr (Or.inr (Or.inr (Or.inr (Or.inr (Or.inr (Or.inl (by rw [h]; rfl)))))))
  · exact Or.inr (Or.inr (Or.inr (Or.inr (Or.inr (Or.inr (Or.inr (by rw [h]; rfl)))))))

/-- Helper: lowercasing a base64-or-padding character never yields the
code points of ':' (58) or '?' (63). -/
theorem asciiLower_b64_toNat (c : Char) (h : isBase64OrPadChar c = true) :
    (asciiLower c).toNat ≠ 58 ∧ (asciiLower c).toNat ≠ 63 := by
  have hc := isBase64OrPadChar_toNat c h
  unfold asciiLower
  split
  · rename_i hu
    rw [toNat_ofNat_of_lt (c.toNat + 32) (by omega)]
    omega
  · rename_i hu
    omega
/-- Helper: the marker head never matches a base64-or-padding
character, case-insensitively. -/
theorem qm_bne_asciiLower_b64 (c : Char) (h : isBase64OrPadChar c = true) :
    (('?' : Char) == asciiLower c) = false := by
  have h63 := (asciiLower_b64_toNat c h).2
  simp only [beq_eq_false_iff_ne, ne_eq]
  intro heq
  rw [← heq] at h63
  exact h63 rfl

/-- Helper: the scheme colon never matches a base64-or-padding
character, case-insensitively. -/
theorem colon_bne_asciiLower_b64 (c : Char) (h : isBase64OrPadChar c = true) :
    ((':' : Char) == asciiLower c) = false := by
  have h58 := (asciiLower_b64_toNat c h).1
  simp only [beq_eq_false_iff_ne, ne_eq]
  intro heq
  rw [← heq] at h58
  exact h58 rfl

/-- Helper: a string none of whose characters lowercases to the marker
head contains no occurrence of the marker. -/
theorem lastCiMarkerSuffix_none (cs : List Char)
    (h : cs.all (fun c => !(('?' : Char) == asciiLower c)) = true) :
    lastCiMarkerSuffix cs = none := by
  induction cs with
  | nil => rfl
  | cons c cs ih =>
      simp only [List.all_cons, Bool.and_eq_true, Bool.not_eq_eq_eq_not,
        Bool.not_true] at h
      obtain ⟨hc, h⟩ := h
      unfold lastCiMarkerSuffix
      rw [ih h, ite_self]
      simp only [ciMarker, matchesCI]
      simp [show asciiLower '?' = '?' from by decide, hc]
/-- Helper: no character of a base64-or-padding payload lowercases to
the marker head. -/
theorem payload_no_marker_head (payload : List Char)
    (h : payload.all isBase64OrPadChar = true) :
    payload.all (fun c => !(('?' : Char) == asciiLower c)) = true := by
  rw [List.all_eq_true] at h ⊢
  intro c hc
  simp only [Bool.not_eq_eq_eq_not, Bool.not_true]
  exact qm_bne_asciiLower_b64 c (h c hc)

/-- Helper: the greedy search finds the marker inserted between a span
of dot-matchable characters and a base64-or-padding payload, and
returns exactly the payload. -/
theorem lastCiMarkerSuffix_finds (mid payload : List Char)
    (hmid : mid.all isJsDotChar = true)
    (hpayload : payload.all isBase64OrPadChar = true) :
    lastCiMarkerSuffix (mid ++ ciMarker ++ payload) = some payload := by
  induction mid with
  | nil =>
      have hnone : lastCiMarkerSuffix ('c' :: '_' :: 'i' :: '=' :: payload) = none := by
        apply lastCiMarkerSuffix_none
        simp only [show ('c' :: '_' :: 'i' :: '=' :: payload) =
          ['c', '_', 'i', '='] ++ payload from rfl, List.all_append, Bool.and_eq_true]
        exact ⟨by decide, payload_no_marker_head payload hpayload⟩
      have hmatch : matchesCI ciMarker ('?' :: 'c' :: '_' :: 'i' :: '=' :: payload)
          = true := rfl
      show lastCiMarkerSuffix ('?' :: 'c' :: '_' :: 'i' :: '=' :: payload) = some payload
      unfold lastCiMarkerSuffix
      simp only [show isJsDotChar '?' = true from by decide, if_true, hnone, hmatch,
        List.drop_succ_cons, List.drop_zero]
  | cons m mid ih =>
      simp only [List.all_cons, Bool.and_eq_true] at hmid
      obtain ⟨hm, hmid⟩ := hmid
      simp only [List.cons_append]
      unfold lastCiMarkerSuffix
      rw [show (mid ++ ciMarker ++ payload : List Char) =
        mid ++ (ciMarker ++ payload) from by simp] at ih
      simp only [hm, if_true, List.append_assoc] at ih ⊢
      rw [ih hmid]
/-- Helper: a case-insensitive prefix match survives extending the
input. -/
theorem matchesCI_append (pat xs ys : List Char)
    (h : matchesCI pat xs = true) : matchesCI pat (xs ++ ys) = true := by
  induction pat generalizing xs with
  | nil => rfl
  | cons p ps ih =>
      match xs with
      | [] => exact absurd h (by simp [matchesCI])
      | x :: xs =>
          simp only [matchesCI, Bool.and_eq_true] at h
          simp only [List.cons_append, matchesCI, Bool.and_eq_true]
          exact ⟨h.1, ih xs h.2⟩

/-- Helper: a case-insensitive prefix match needs at least the pattern
length of input. -/
theorem matchesCI_length (pat xs : List Char)
    (h : matchesCI pat xs = true) : pat.length ≤ xs.length := by
  induction pat generalizing xs with
  | nil => simp
  | cons p ps ih =>
      match xs with
      | [] => exact absurd h (by simp [matchesCI])
      | x :: xs =>
          simp only [matchesCI, Bool.and_eq_true] at h
          simpa using ih xs h.2

/-- Helper: a base64-or-padding string never starts with the http
scheme (its fifth character cannot lowercase to the colon). -/
theorem matchesCI_http_b64_false (cs : List Char)
    (h : cs.all isBase64OrPadChar = true) :
    matchesCI httpSchemeChars cs = false := by
  match cs with
  | [] => rfl
  | [c0] => simp [httpSchemeChars, matchesCI]
  | [c0, c1] => simp [httpSchemeChars, matchesCI]
  | [c0, c1, c2] => simp [httpSchemeChars, matchesCI]
  | [c0, c1, c2, c3] => simp [httpSchemeChars, matchesCI]
  | c0 :: c1 :: c2 :: c3 :: c4 :: rest =>
      simp only [List.all_cons, Bool.and_eq_true] at h
      have h4 := colon_bne_asciiLower_b64 c4 h.2.2.2.2.1
      simp [httpSchemeChars, matchesCI,
        show asciiLower ':' = ':' from by decide, h4]

/-- Helper: a base64-or-padding string never starts with the https
scheme (its sixth character cannot lowercase to the colon). -/
theorem matchesCI_https_b64_false (cs : List Char)
    (h : cs.all isBase64OrPadChar = true) :
    matchesCI httpsSchemeChars cs = false := by
  match cs with
  | [] => rfl
  | [c0] => simp [httpsSchemeChars, matchesCI]
  | [c0, c1] => simp [httpsSchemeChars, matchesCI]
  | [c0, c1, c2] => simp [httpsSchemeChars, matchesCI]
  | [c0, c1, c2, c3] => simp [httpsSchemeChars, matchesCI]
  | [c0, c1, c2, c3, c4] => simp [httpsSchemeChars, matchesCI]
  | c0 :: c1 :: c2 :: c3 :: c4 :: c5 :: rest =>
      simp only [List.all_cons, Bool.and_eq_true] at h
      have h5 := colon_bne_asciiLower_b64 c5 h.2.2.2.2.2.1
      simp [httpsSchemeChars, matchesCI,
        show asciiLower ':' = ':' from by decide, h5]

/-- Helper: a string starting with the https scheme does not start with
the http scheme: its fifth character lowercases to the letter s, not to
the colon. -/
theorem matchesCI_https_not_http (xs : List Char)
    (h : matchesCI httpsSchemeChars xs = true) :
    matchesCI httpSchemeChars xs = false := by
  match xs with
  | [] => exact absurd h (by simp [httpsSchemeChars, matchesCI])
  | [c0] => exact absurd h (by simp [httpsSchemeChars, matchesCI])
  | [c0, c1] => exact absurd h (by simp [httpsSchemeChars, matchesCI])
  | [c0, c1, c2] => exact absurd h (by simp [httpsSchemeChars, matchesCI])
  | [c0, c1, c2, c3] => exact absurd h (by simp [httpsSchemeChars, matchesCI])
  | c0 :: c1 :: c2 :: c3 :: c4 :: rest =>
      simp only [httpsSchemeChars, matchesCI, Bool.and_eq_true, beq_iff_eq] at h
      have h4 : asciiLower c4 = 's' := by
        rw [← h.2.2.2.2.1]
        decide
      simp [httpSchemeChars, matchesCI, h4,
        show asciiLower ':' = ':' from by decide]
/-- Helper: a predicate holding on a whole list holds on any suffix. -/
theorem all_of_drop (l : List Char) (f : Char → Bool) (n : Nat)
    (h : l.all f = true) : (l.drop n).all f = true := by
  rw [List.all_eq_true] at h ⊢
  intro c hc
  exact h c (List.drop_subset n l hc)

/-- Helper: the regex strip applied to a full invitation URL — an http
or https prefix of dot-matchable characters, the c_i query marker, and a
base64 payload — removes everything up to the marker and keeps exactly
the payload. -/
theorem stripInvitationHead_url (p payload : List Char)
    (hscheme : matchesCI httpSchemeChars p = true
      ∨ matchesCI httpsSchemeChars p = true)
    (hdot : p.all isJsDotChar = true)
    (hpayload : payload.all isBase64OrPadChar = true) :
    stripInvitationHead (p ++ ciMarker ++ payload) = payload := by
  have key : ∀ k, k ≤ p.length →
      lastCiMarkerSuffix ((p ++ ciMarker ++ payload).drop k) = some payload := by
    intro k hk
    rw [List.append_assoc, List.drop_append_of_le_length hk, ← List.append_assoc]
    exact lastCiMarkerSuffix_finds (p.drop k) payload
      (all_of_drop p isJsDotChar k hdot) hpayload
  rcases hscheme with hh | hh
  · have hfull : matchesCI httpSchemeChars (p ++ ciMarker ++ payload) = true := by
      rw [List.append_assoc]
      exact matchesCI_append _ p _ hh
    unfold stripInvitationHead
    rw [if_pos hfull, key 7 (matchesCI_length _ p hh)]
  · have hfull : matchesCI httpsSchemeChars (p ++ ciMarker ++ payload) = true := by
      rw [List.append_assoc]
      exact matchesCI_append _ p _ hh
    have hnothttp := matchesCI_https_not_http _ hfull
    unfold stripInvitationHead
    rw [if_neg (by simp only [← List.append_assoc, hnothttp]; simp),
        if_pos hfull, key 8 (matchesCI_length _ p hh)]

/-- Helper: the regex strip leaves a bare base64 payload unchanged (a
base64 string cannot start with an http or https scheme). -/
theorem stripInvitationHead_bare (payload : List Char)
    (h : payload.all isBase64OrPadChar = true) :
    stripInvitationHead payload = payload := by
  unfold stripInvitationHead
  rw [if_neg (by simp [matchesCI_http_b64_false payload h]),
      if_neg (by simp [matchesCI_https_b64_false payload h])]
/-- Claim C10, confirmed. `acceptConnectionInvitation` accepts the
invitation in two shapes — a bare base64 string, or a full http(s) URL
carrying the base64 invitation after its `c_i` query parameter — and
decodes both to the same invitation; and any input whose decoded form is
not parseable JSON fails with the validation error
"Invalid invitationUrl: it is not base64 encoded" without issuing any
Agent Service command. -/
theorem c10_invitation_decoding :
    (∀ (p payload : List Char) (a : String) (svc : Option String),
        (matchesCI httpSchemeChars p = true
          ∨ matchesCI httpsSchemeChars p = true) →
        p.all isJsDotChar = true →
        payload.all isBase64OrPadChar = true →
        acceptConnectionInvitation a (String.mk (p ++ ciMarker ++ payload)) svc =
          acceptConnectionInvitation a (String.mk payload) svc)
    ∧ (∀ (a url : String) (svc : Option String),
        jsonParseable (decodeInvitationText url) = false →
        acceptConnectionInvitation a url svc =
          { commandBody := none
            result := .error "Invalid invitationUrl: it is not base64 encoded" }) := by
  constructor
  · intro p payload a svc hscheme hdot hpayload
    have hdec : decodeInvitationText (String.mk (p ++ ciMarker ++ payload)) =
        decodeInvitationText (String.mk payload) := by
      unfold decodeInvitationText
      rw [show (String.mk (p ++ ciMarker ++ payload)).data =
            p ++ ciMarker ++ payload from rfl,
          show (String.mk payload).data = payload from rfl,
          stripInvitationHead_url p payload hscheme hdot hpayload,
          stripInvitationHead_bare payload hpayload]
    simp only [acceptConnectionInvitation, hdec]
  · intro a url svc h
    simp only [acceptConnectionInvitation, h, Bool.false_eq_true, if_false]

/-- Witness for c10_invitation_decoding: the URL shape
"http://demo?c_i=eyJhIjoiPz4_In0=" — whose payload uses the URL-safe
base64 character code 95, decoding to a JSON object — yields the same
outcome as the bare payload "eyJhIjoiPz4_In0=", and the undecodable
input "###" fails with the validation error before any command. -/
theorem c10_invitation_decoding_witness :
    acceptConnectionInvitation "Org-B"
        (String.mk ("http://demo".data ++ ciMarker ++ "eyJhIjoiPz4_In0=".data))
        (some "c1") =
      acceptConnectionInvitation "Org-B" (String.mk "eyJhIjoiPz4_In0=".data)
        (some "c1")
    ∧ acceptConnectionInvitation "Org-B" "###" (some "c1") =
        { commandBody := none
          result := .error "Invalid invitationUrl: it is not base64 encoded" } := by
  constructor
  · exact c10_invitation_decoding.1 "http://demo".data "eyJhIjoiPz4_In0=".data
      "Org-B" (some "c1") (Or.inl (by decide)) (by decide) (by decide)
  · exact c10_invitation_decoding.2 "Org-B" "###" (some "c1") (by decide)
